import Mathlib

/-!
Shallow embedding of the Vinylzz estimation pipeline (lib/estimate.js) and
the queue enqueue helper (queue.js).

Modelling conventions:
- JavaScript string-valued fields that may be null/undefined are `Option String`
  (`none` models null and undefined alike); JS truthiness on such a value is
  `falsy` below (null, undefined and the empty string are falsy).
- JS numbers are modelled as rationals (prices) and integers (counts, ids).
- Each external HTTP call is modelled by an exchange value describing what
  the awaited calls of that site produced: a rejection of the fetch itself
  (network error), a response with res.ok false, a response whose body makes
  res.json() reject, or the parsed body.  Functions that can rethrow one of
  those rejections return Except String; in particular discogsReleaseStats
  and aiNormalize have no try/catch around fetch and res.json() in the
  source, so those rejections propagate out of estimateFromMetadata.  The
  only caught failure is JSON.parse of the model content inside aiNormalize,
  modelled as the unparsable outcome.
- Math.round is half-up rounding, the floor of x + 1/2, as in JS.
-/

namespace Vinylzz

/-- A JS string field that may be null or undefined (`none`). -/
abbrev StrVal := Option String

/-- JS truthiness test for an optional string: null, undefined and "" are falsy. -/
def falsy : StrVal → Bool
  | none => true
  | some s => s == ""

/-- JS `a || b` for optional string values. -/
def jsOr (a b : StrVal) : StrVal := if falsy a then b else a

/-- Record metadata flowing through the pipeline: the five columns the worker
reads from the records table. -/
structure Meta where
  artist : StrVal
  title : StrVal
  label : StrVal
  catno : StrVal
  barcode : StrVal
deriving DecidableEq

/-- Community interest counts on a search candidate (first.community). -/
structure Community where
  «have» : Option Int
  want : Option Int
deriving DecidableEq

/-- One Discogs search result entry, with the fields the code reads. -/
structure Candidate where
  id : Option Int
  type : Option String
  title : StrVal
  country : StrVal
  year : StrVal
  label : StrVal
  catno : StrVal
  community : Option Community
deriving DecidableEq

/-- Pagination block of a search response (search.pagination). -/
structure Pagination where
  items : Option Int
deriving DecidableEq

/-- Parsed body of a Discogs search response. -/
structure SearchResponse where
  results : List Candidate
  pagination : Option Pagination
deriving DecidableEq

/-- Outcome of the Discogs search HTTP exchange: the fetch may reject with a
network error, the response may be non-ok (its status and text feed the
thrown message), res.json() may reject, or the body parses. -/
inductive SearchExchange
  | netError (msg : String)
  | httpError (status : Nat) (errText : String)
  | badJson (msg : String)
  | parsed (body : SearchResponse)
deriving DecidableEq

/-- The lowest_price object inside marketplace stats (may lack a value). -/
structure LowestPrice where
  value : Option ℚ
deriving DecidableEq

/-- Parsed body of a marketplace stats response: num_for_sale, lowest_price. -/
structure Stats where
  num_for_sale : Option Int
  lowest_price : Option LowestPrice
deriving DecidableEq

/-- Outcome of the stats HTTP exchange: fetch rejection, non-ok response,
res.json() rejection, or the parsed body. -/
inductive StatsExchange
  | netError (msg : String)
  | httpError
  | badJson (msg : String)
  | parsed (body : Stats)
deriving DecidableEq

/-- JS truthiness of the candidate id used by discogsReleaseStats
(if (!releaseId) return null): null, undefined and 0 are falsy. -/
def idFalsy : Option Int → Bool
  | none => true
  | some i => i == 0

/-- Outcome of the OpenAI normalizer call, following the code's structure:
the fetch may reject, the response may be non-ok (returns meta), res.json()
may reject (its rejection is outside the try/catch and propagates), the
model content string may fail JSON.parse (the caught path, returns meta),
or the content parses to an object whose artist/title fields may each be
absent or empty.  An absent or empty content string parses as the empty
object and is the parsed none none case. -/
inductive AiResponse
  | netError (msg : String)
  | httpError
  | badJson (msg : String)
  | unparsable
  | parsed (artist title : StrVal)
deriving DecidableEq

/-- Environment of one aiNormalize call: whether OPENAI_API_KEY is set and
what the remote exchange produced. -/
structure AiEnv where
  keyConfigured : Bool
  response : AiResponse

/-- Environment of one whole pipeline run: one normalizer exchange, one
search exchange and one stats exchange. -/
structure Env where
  ai : AiEnv
  search : SearchExchange
  stats : StatsExchange

/-- Query-string pairs built by discogsSearch from the metadata: each of the
four fields is included exactly when it is truthy (title under the
release_title key). -/
def searchQuery (m : Meta) : List (String × String) :=
  (if falsy m.artist then [] else [("artist", m.artist.getD "")]) ++
  (if falsy m.title then [] else [("release_title", m.title.getD "")]) ++
  (if falsy m.catno then [] else [("catno", m.catno.getD "")]) ++
  (if falsy m.barcode then [] else [("barcode", m.barcode.getD "")])

/-- discogsSearch: if the query has no keys, return { results: [] } without
issuing a request; otherwise a fetch rejection propagates, a non-ok response
throws "Discogs search status: text", a res.json() rejection propagates, and
a parsed body is returned. -/
def discogsSearch (env : SearchExchange) (m : Meta) : Except String SearchResponse :=
  if (searchQuery m).isEmpty then .ok { results := [], pagination := none }
  else
    match env with
    | .netError msg => .error msg
    | .httpError status errText =>
      .error ("Discogs search " ++ toString status ++ ": " ++ errText)
    | .badJson msg => .error msg
    | .parsed body => .ok body

/-- discogsReleaseStats: a falsy release id yields null without a request; a
fetch rejection propagates (no try/catch in the source), a non-ok response
yields null, a res.json() rejection propagates, and a parsed body is
returned. -/
def discogsReleaseStats (env : StatsExchange) (releaseId : Option Int) :
    Except String (Option Stats) :=
  if idFalsy releaseId then .ok none
  else
    match env with
    | .netError msg => .error msg
    | .httpError => .ok none
    | .badJson msg => .error msg
    | .parsed body => .ok (some body)

/-- aiNormalize: skip when no key is configured; a fetch rejection
propagates, a non-ok response returns meta, a res.json() rejection
propagates (it is outside the try/catch), content that fails JSON.parse is
caught and returns meta, and parsed content rebuilds the object with
artist/title falling back per field to meta and the other three fields
copied from meta. -/
def aiNormalize (env : AiEnv) (meta : Meta) : Except String Meta :=
  if !env.keyConfigured then .ok meta
  else
    match env.response with
    | .netError msg => .error msg
    | .httpError => .ok meta
    | .badJson msg => .error msg
    | .unparsable => .ok meta
    | .parsed a t =>
      .ok { artist := jsOr a meta.artist
            title := jsOr t meta.title
            label := meta.label
            catno := meta.catno
            barcode := meta.barcode }

/-- Extras of an estimation result: either the no-results diagnostic or the
matched-candidate block. -/
inductive Extras
  | noResults (note : String) (query : Meta) (search_count : Int)
  | matched (release_id : Option Int) (title country year label catno : StrVal)
      (community_have community_want : Option Int) (num_for_sale : Option Int)
deriving DecidableEq

/-- Result snapshot of one pipeline run. -/
structure EstimationResult where
  source : String
  lowest_price : Option ℚ
  median_price : Option ℚ
  estimated_price : Option ℚ
  extras : Extras
deriving DecidableEq

/-- Math.round: half-up rounding to the nearest integer. -/
def jsRound (x : ℚ) : ℤ := ⌊x + 1/2⌋

/-- The cleaned metadata a pipeline run feeds to the search step, or the
normalizer rejection the run rethrows. -/
def cleanOf (env : Env) (meta : Meta) : Except String Meta := aiNormalize env.ai meta

/-- The search outcome of a pipeline run. -/
def searchOf (env : Env) (meta : Meta) : Except String SearchResponse :=
  match cleanOf env meta with
  | .error e => .error e
  | .ok m => discogsSearch env.search m

/-- Candidate selection: the first result whose type is release, else the
first result overall, the find-or-first expression of the source written
with find? and orElse. -/
def pickFirst (rs : List Candidate) : Option Candidate :=
  (rs.find? (fun r => r.type == some "release")).orElse (fun _ => rs.head?)

/-- The stats value a successful pipeline run uses: none when the search
failed, found no candidate, the candidate id is falsy, or the stats call
answered non-ok; a thrown stats failure carries no value either. -/
def statsOf (env : Env) (meta : Meta) : Option Stats :=
  match searchOf env meta with
  | .error _ => none
  | .ok s =>
    match pickFirst s.results with
    | none => none
    | some c =>
      match discogsReleaseStats env.stats c.id with
      | .error _ => none
      | .ok st => st

/-- estimateFromMetadata: normalize, search, pick a candidate, fetch stats,
derive the price and assemble the snapshot, exactly as lib/estimate.js; a
rejection thrown by any awaited step propagates. -/
def estimateFromMetadata (env : Env) (meta : Meta) : Except String EstimationResult :=
  match aiNormalize env.ai meta with
  | .error e => .error e
  | .ok clean =>
    match discogsSearch env.search clean with
    | .error e => .error e
    | .ok search =>
      match pickFirst search.results with
      | none =>
        .ok { source := "discogs"
              lowest_price := none
              median_price := none
              estimated_price := none
              extras := Extras.noResults "no results" clean
                (((search.pagination.bind Pagination.items).getD 0)) }
      | some first =>
        match discogsReleaseStats env.stats first.id with
        | .error e => .error e
        | .ok stats =>
          let lowest := (stats.bind Stats.lowest_price).bind LowestPrice.value
          let count : Int := (stats.bind Stats.num_for_sale).getD 0
          let estimated : Option ℚ :=
            match lowest with
            | some l => some (if count > 5 then (jsRound (l * (13/10) * 100) : ℚ) / 100 else l)
            | none => none
          .ok { source := "discogs"
                lowest_price := lowest
                median_price := none
                estimated_price := estimated
                extras := Extras.matched first.id first.title first.country first.year
                  first.label first.catno
                  (first.community.bind Community.«have») (first.community.bind Community.want)
                  (stats.bind Stats.num_for_sale) }

/-- Rounding to two decimal places, written from the spec wording
round(x, 2 decimal places) with half-up ties, for comparison against the
code's Math.round(x * 100) / 100. -/
def roundHalfUpTo2dp (x : ℚ) : ℚ := (⌊x * 100 + 1/2⌋ : ℚ) / 100

/-- Backoff options attached to an enqueued job. -/
structure BackoffOpts where
  type : String
  delay : Nat
deriving DecidableEq

/-- Retention window options for completed and failed jobs. -/
structure RetentionOpts where
  age : Nat
  count : Nat
deriving DecidableEq

/-- Options queue.js passes to q.add for every enqueued job. -/
structure JobOptions where
  attempts : Nat
  backoff : BackoffOpts
  removeOnComplete : RetentionOpts
  removeOnFail : RetentionOpts
deriving DecidableEq

/-- A job as handed to the queue: name, payload and options. -/
structure AddedJob (α : Type) where
  name : String
  data : α
  opts : JobOptions

/-- The enqueue helper of queue.js: q.add with the fixed default options. -/
def enqueue {α : Type} (name : String) (data : α) : AddedJob α :=
  { name := name
    data := data
    opts :=
      { attempts := 5
        backoff := { type := "exponential", delay := 2000 }
        removeOnComplete := { age := 3600, count := 5000 }
        removeOnFail := { age := 86400, count := 1000 } } }

/-- Concrete metadata for worked examples: the spec's Artist A / Title B. -/
def metaW : Meta :=
  { artist := some "Artist A", title := some "Title B"
    label := none, catno := none, barcode := none }

/-- Concrete release candidate with id 42. -/
def candW : Candidate :=
  { id := some 42, type := some "release", title := some "Title B"
    country := none, year := none, label := none, catno := none, community := none }

/-- Normalizer environment with no API key configured. -/
def aiOffW : AiEnv := { keyConfigured := false, response := AiResponse.httpError }

/-- Search body holding exactly the release candidate with id 42. -/
def searchBodyW : SearchResponse :=
  { results := [candW], pagination := some { items := some 1 } }

/-- Search body holding no candidates. -/
def emptyBodyW : SearchResponse := { results := [], pagination := none }

/-- Stats body with lowest price 10.00 and 8 active listings. -/
def statsBodyW : Stats :=
  { num_for_sale := some 8, lowest_price := some { value := some 10 } }

/-- Run environment of the spec's uplift scenario. -/
def envUplift : Env :=
  { ai := aiOffW
    search := SearchExchange.parsed searchBodyW
    stats := StatsExchange.parsed statsBodyW }

/-- Run environment whose stats call answers non-ok. -/
def envStatsFail : Env :=
  { ai := aiOffW
    search := SearchExchange.parsed searchBodyW
    stats := StatsExchange.httpError }

/-- Run environment whose stats fetch rejects with a network error. -/
def envStatsNet : Env :=
  { ai := aiOffW
    search := SearchExchange.parsed searchBodyW
    stats := StatsExchange.netError "fetch failed" }

/-- Run environment whose search answers with zero candidates. -/
def envEmptySearch : Env :=
  { ai := aiOffW
    search := SearchExchange.parsed emptyBodyW
    stats := StatsExchange.httpError }

/-- Search exchange that would answer 500, used to show that an all-empty
query never issues the request. -/
def envDownW : SearchExchange := SearchExchange.httpError 500 "down"

/-- The degraded snapshot produced by envStatsFail on metaW. -/
def resDegraded : EstimationResult :=
  { source := "discogs"
    lowest_price := none
    median_price := none
    estimated_price := none
    extras := Extras.matched (some 42) (some "Title B") none none none none
      none none none }

/-- Metadata whose artist is null, title empty, catno and barcode absent:
only the label survives, which the query never uses. -/
def metaNoQuery : Meta :=
  { artist := none, title := some "", label := some "X"
    catno := none, barcode := none }

/-- Normalizer exchange whose parsed content has a fresh artist but an empty
title. -/
def aiMixW : AiEnv :=
  { keyConfigured := true
    response := AiResponse.parsed (some "Clean Artist") (some "") }

/-- The normalizer output for aiMixW on metaW: rewritten artist, original
title, other fields copied. -/
def mixedOutW : Meta :=
  { artist := some "Clean Artist", title := some "Title B"
    label := none, catno := none, barcode := none }

/-- Candidate whose type discriminator is master, not release. -/
def candM : Candidate :=
  { id := some 7, type := some "master", title := none
    country := none, year := none, label := none, catno := none, community := none }

/-- Claim C1: when the stats lookup of a pipeline run returns a non-null
lowest price L and an active-listing count C, estimateFromMetadata succeeds
with lowest_price L, median_price null, and estimated_price equal to
round(L * 1.3, 2 decimal places) when C > 5 and to L unchanged when
C <= 5. -/
theorem estimate_uplift (env : Env) (meta : Meta) (s : SearchResponse) (c : Candidate)
    (st : Stats) (L : ℚ) (C : Int)
    (hs : searchOf env meta = .ok s)
    (hc : pickFirst s.results = some c)
    (hst : discogsReleaseStats env.stats c.id = .ok (some st))
    (hL : Option.bind st.lowest_price LowestPrice.value = some L)
    (hC : st.num_for_sale = some C) :
    (estimateFromMetadata env meta).map
        (fun r => (r.lowest_price, r.median_price, r.estimated_price)) =
      .ok (some L, none, some (if 5 < C then roundHalfUpTo2dp (L * (13/10)) else L)) := by
  unfold searchOf cleanOf at hs
  unfold estimateFromMetadata
  cases hcl : aiNormalize env.ai meta with
  | error e => rw [hcl] at hs; cases hs
  | ok clean =>
    rw [hcl] at hs
    dsimp only at hs
    dsimp only
    rw [hs]
    dsimp only
    rw [hc]
    dsimp only
    rw [hst]
    dsimp only
    simp only [Option.some_bind, hL, hC, Option.getD_some, Except.map,
      roundHalfUpTo2dp, jsRound, gt_iff_lt]

/-- Witness for C1, the spec's concrete scenario: a single release candidate
with id 42, stats lowest price 10.00 with 8 active listings, estimated price
13.00. -/
theorem estimate_uplift_witness :
    (estimateFromMetadata envUplift metaW).map
        (fun r => (r.lowest_price, r.median_price, r.estimated_price)) =
      .ok (some 10, none, some 13) := by
  have h := estimate_uplift envUplift metaW searchBodyW candW statsBodyW 10 8
    rfl rfl rfl rfl rfl
  rw [h]
  norm_num [roundHalfUpTo2dp]

/-- Claim C2: every result returned by estimateFromMetadata has median_price
null, its lowest_price is exactly the lowest price the stats lookup of the
run yielded, and a null lowest_price forces a null estimated_price. -/
theorem estimate_null_propagation (env : Env) (meta : Meta) (r : EstimationResult)
    (hr : estimateFromMetadata env meta = .ok r) :
    r.median_price = none ∧
    r.lowest_price = Option.bind (Option.bind (statsOf env meta) Stats.lowest_price)
      LowestPrice.value ∧
    (r.lowest_price = none → r.estimated_price = none) := by
  unfold estimateFromMetadata at hr
  unfold statsOf searchOf cleanOf
  cases hcl : aiNormalize env.ai meta with
  | error e => rw [hcl] at hr; cases hr
  | ok clean =>
    rw [hcl] at hr
    dsimp only at hr ⊢
    cases hsearch : discogsSearch env.search clean with
    | error e => rw [hsearch] at hr; dsimp only at hr; cases hr
    | ok s =>
      rw [hsearch] at hr
      dsimp only at hr ⊢
      cases hpick : pickFirst s.results with
      | none =>
        rw [hpick] at hr
        dsimp only at hr ⊢
        cases hr
        simp
      | some c =>
        rw [hpick] at hr
        dsimp only at hr ⊢
        cases hst : discogsReleaseStats env.stats c.id with
        | error e => rw [hst] at hr; dsimp only at hr; cases hr
        | ok stOpt =>
          rw [hst] at hr
          dsimp only at hr ⊢
          cases hlow : Option.bind (Option.bind stOpt Stats.lowest_price)
              LowestPrice.value with
          | none =>
            rw [hlow] at hr
            dsimp only at hr
            cases hr
            simp [hlow]
          | some l =>
            rw [hlow] at hr
            dsimp only at hr
            cases hr
            simp [hlow]

/-- Witness for C2: a run whose stats call returns a non-ok response yields a
result with null lowest price, null median and null estimate. -/
theorem estimate_null_propagation_witness :
    resDegraded.median_price = none ∧
    resDegraded.lowest_price = Option.bind (Option.bind (statsOf envStatsFail metaW)
      Stats.lowest_price) LowestPrice.value ∧
    (resDegraded.lowest_price = none → resDegraded.estimated_price = none) :=
  estimate_null_propagation envStatsFail metaW resDegraded rfl

/-- Claim C3: when the search of a run returns an empty candidate list,
estimateFromMetadata returns early with all three price fields null and
extras carrying the note "no results", the echoed (cleaned) query and the
search's reported total count. -/
theorem estimate_no_results (env : Env) (meta clean : Meta) (s : SearchResponse)
    (hclean : cleanOf env meta = .ok clean)
    (hs : searchOf env meta = .ok s) (he : s.results = []) :
    estimateFromMetadata env meta =
      .ok { source := "discogs"
            lowest_price := none
            median_price := none
            estimated_price := none
            extras := Extras.noResults "no results" clean
              ((s.pagination.bind Pagination.items).getD 0) } := by
  unfold cleanOf at hclean
  unfold searchOf cleanOf at hs
  rw [hclean] at hs
  dsimp only at hs
  unfold estimateFromMetadata
  rw [hclean]
  dsimp only
  rw [hs]
  dsimp only
  have hp : pickFirst s.results = none := by rw [he]; rfl
  rw [hp]

/-- Witness for C3: a search that answers with zero candidates and a reported
total of 0 produces the no-results snapshot. -/
theorem estimate_no_results_witness :
    estimateFromMetadata envEmptySearch metaW =
      .ok { source := "discogs"
            lowest_price := none
            median_price := none
            estimated_price := none
            extras := Extras.noResults "no results" metaW 0 } := by
  have h := estimate_no_results envEmptySearch metaW metaW emptyBodyW rfl rfl rfl
  simpa using h

/-- Claim C4 is refuted by the code: in this run the search succeeds and the
release candidate with a truthy id 42 is selected, only the stats fetch
rejects with a network error, yet estimateFromMetadata rethrows that
rejection (the source has no try/catch around the stats fetch) and the
pipeline fails instead of degrading to a null-price result as the claim and
the spec's failure semantics require. -/
theorem stats_failure_fails_pipeline :
    searchOf envStatsNet metaW = .ok searchBodyW ∧
    pickFirst searchBodyW.results = some candW ∧
    estimateFromMetadata envStatsNet metaW = .error "fetch failed" :=
  ⟨rfl, rfl, rfl⟩

/-- Claim C5: candidate selection returns the first entry whose type is
release, and when no entry has that type it returns the first entry of the
list overall. -/
theorem pickFirst_release_or_first (rs : List Candidate) :
    (∀ l₁ c l₂, rs = l₁ ++ c :: l₂ → c.type = some "release" →
      (∀ x ∈ l₁, x.type ≠ some "release") → pickFirst rs = some c)
    ∧ ((∀ x ∈ rs, x.type ≠ some "release") → pickFirst rs = rs.head?) := by
  constructor
  · intro l₁ c l₂ hrs hc hl
    subst hrs
    have hfind : ∀ (l : List Candidate), (∀ x ∈ l, x.type ≠ some "release") →
        (l ++ c :: l₂).find? (fun r => r.type == some "release") = some c := by
      intro l
      induction l with
      | nil =>
        intro _
        simp [List.find?_cons, hc]
      | cons x xs ih =>
        intro hl
        have hx : (x.type == some "release") = false := by
          rw [beq_eq_false_iff_ne]
          exact hl x (by simp)
        simp only [List.cons_append, List.find?_cons]
        rw [hx]
        exact ih (fun y hy => hl y (by simp [hy]))
    unfold pickFirst
    rw [hfind l₁ hl]
    rfl
  · intro hall
    have hfind : rs.find? (fun r => r.type == some "release") = none := by
      rw [List.find?_eq_none]
      intro x hx
      rw [Bool.not_eq_true, beq_eq_false_iff_ne]
      exact hall x hx
    unfold pickFirst
    rw [hfind]
    rfl

/-- Witness for C5: with a master entry before a release entry the release
entry is picked; with masters only the first entry is picked. -/
theorem pickFirst_release_or_first_witness :
    pickFirst [candM, candW] = some candW ∧ pickFirst [candM] = some candM := by
  constructor
  · exact (pickFirst_release_or_first [candM, candW]).1 [candM] candW [] rfl rfl
      (by decide)
  · exact (pickFirst_release_or_first [candM]).2 (by decide)

/-- Claim C6: when the normalizer is unconfigured, gets a non-ok response,
or gets model content that fails to parse, the cleaned metadata the pipeline
feeds to search equals the original metadata field for field. -/
theorem normalizer_fallback (env : Env) (meta : Meta)
    (h : env.ai.keyConfigured = false ∨ env.ai.response = AiResponse.httpError ∨
      env.ai.response = AiResponse.unparsable) :
    cleanOf env meta = .ok meta ∧ searchOf env meta = discogsSearch env.search meta := by
  have hc : cleanOf env meta = .ok meta := by
    unfold cleanOf aiNormalize
    rcases h with h | h | h
    · rw [h]
      rfl
    · rw [h]
      cases env.ai.keyConfigured <;> rfl
    · rw [h]
      cases env.ai.keyConfigured <;> rfl
  refine ⟨hc, ?_⟩
  unfold searchOf
  rw [hc]

/-- Witness for C6: with no API key configured the cleaned metadata is the
original metadata. -/
theorem normalizer_fallback_witness :
    cleanOf envStatsFail metaW = .ok metaW ∧
    searchOf envStatsFail metaW = discogsSearch envStatsFail.search metaW :=
  normalizer_fallback envStatsFail metaW (Or.inl rfl)

/-- Claim C7: every metadata object the normalizer returns keeps label,
catno and barcode equal to the input's; only artist and title can change.
The code copies the three fields from meta in every return. -/
theorem normalizer_preserves_label_catno_barcode (env : AiEnv) (meta m' : Meta)
    (h : aiNormalize env meta = .ok m') :
    m'.label = meta.label ∧ m'.catno = meta.catno ∧ m'.barcode = meta.barcode := by
  unfold aiNormalize at h
  cases hk : env.keyConfigured <;> rw [hk] at h
  case false =>
    simp at h
    subst h
    exact ⟨rfl, rfl, rfl⟩
  case true =>
    cases hres : env.response <;> rw [hres] at h <;> simp at h <;> subst h <;>
      exact ⟨rfl, rfl, rfl⟩

/-- Witness for C7: the mixed normalizer output keeps the label, catno and
barcode of the original metadata. -/
theorem normalizer_preserves_label_catno_barcode_witness :
    mixedOutW.label = metaW.label ∧ mixedOutW.catno = metaW.catno ∧
    mixedOutW.barcode = metaW.barcode :=
  normalizer_preserves_label_catno_barcode aiMixW metaW mixedOutW rfl

/-- Helper: a truthy optional string equals some v exactly when v is the
value getD extracts from it. -/
theorem eq_some_iff_getD {o : StrVal} (h : falsy o = false) {v : String} :
    o = some v ↔ v = o.getD "" := by
  cases o with
  | none => simp [falsy] at h
  | some s => simpa using eq_comm

/-- Claim C8: the search query holds exactly the truthy fields among artist,
title, catno and barcode of the metadata fed to search, and when all four
are falsy the request is skipped: discogsSearch answers zero results
whatever the remote would have said. -/
theorem searchQuery_exact_fields (m : Meta) :
    ((searchQuery m).isEmpty = true ↔
      (falsy m.artist = true ∧ falsy m.title = true ∧ falsy m.catno = true ∧
        falsy m.barcode = true))
    ∧ (∀ k v, (k, v) ∈ searchQuery m ↔
        ((k = "artist" ∧ falsy m.artist = false ∧ m.artist = some v) ∨
         (k = "release_title" ∧ falsy m.title = false ∧ m.title = some v) ∨
         (k = "catno" ∧ falsy m.catno = false ∧ m.catno = some v) ∨
         (k = "barcode" ∧ falsy m.barcode = false ∧ m.barcode = some v)))
    ∧ ((searchQuery m).isEmpty = true →
        ∀ env, discogsSearch env m = .ok { results := [], pagination := none }) := by
  refine ⟨?_, ?_, ?_⟩
  · unfold searchQuery
    cases ha : falsy m.artist <;> cases ht : falsy m.title <;>
      cases hc : falsy m.catno <;> cases hb : falsy m.barcode <;> simp
  · intro k v
    unfold searchQuery
    cases ha : falsy m.artist <;> cases ht : falsy m.title <;>
      cases hc : falsy m.catno <;> cases hb : falsy m.barcode <;>
      simp [ha, ht, hc, hb, eq_some_iff_getD, Prod.ext_iff, and_assoc]
  · intro h env
    unfold discogsSearch
    rw [if_pos h]

/-- Witness for C8: metadata with a null artist, empty title, no catno and
no barcode (the label does not count) skips the search even against a remote
that would answer 500, and is treated as zero results. -/
theorem searchQuery_exact_fields_witness :
    discogsSearch envDownW metaNoQuery = .ok { results := [], pagination := none } :=
  (searchQuery_exact_fields metaNoQuery).2.2 rfl envDownW

/-- Claim C9: every job created through the enqueue helper carries attempts 5
and an exponential backoff with base delay 2000 milliseconds. -/
theorem enqueue_default_retry_policy {α : Type} (name : String) (data : α) :
    (enqueue name data).opts.attempts = 5 ∧
    (enqueue name data).opts.backoff.type = "exponential" ∧
    (enqueue name data).opts.backoff.delay = 2000 :=
  ⟨rfl, rfl, rfl⟩

/-- Claim C10: when the normalizer content parses, each of artist and title
individually falls back to the original metadata value exactly when the
parsed value is missing or empty, so the output can mix one rewritten field
with one original field. -/
theorem normalizer_per_field_fallback (env : AiEnv) (meta : Meta) (a t : StrVal)
    (hk : env.keyConfigured = true) (hres : env.response = AiResponse.parsed a t) :
    aiNormalize env meta =
      .ok { artist := if falsy a then meta.artist else a
            title := if falsy t then meta.title else t
            label := meta.label
            catno := meta.catno
            barcode := meta.barcode } := by
  unfold aiNormalize
  rw [hk, hres]
  simp [jsOr]

/-- Witness for C10: a parsed artist with an empty parsed title yields the
rewritten artist together with the original title. -/
theorem normalizer_per_field_fallback_witness :
    aiNormalize aiMixW metaW = .ok mixedOutW := by
  have h := normalizer_per_field_fallback aiMixW metaW (some "Clean Artist") (some "")
    rfl rfl
  rw [h]
  rfl

end Vinylzz
